import Mathlib

/-!
# Verification of the GraspMind coordinate pipeline

A shallow embedding of the parts of the GraspMind repository that carry the
coordinate-space and pipeline-sequencing invariants stated in the design
specification, together with proofs (and refutations) of those invariants.

Modelling conventions:
* Python `int` values are embedded as `ℤ`, Python `float` values as `ℚ`
  (exact arithmetic; the spec's claims are algebraic and "within rounding
  tolerance", so binary floating point rounding is not modelled).
* Python's `int(x)` conversion (truncation toward zero) is `py_int`.
* A Python method that can raise is embedded as a function into
  `Except String α`, the error carrying the exception message.
* Mutable object attributes (`self.scale_factor`, ...) are embedded as an
  explicit state value threaded through the functions that touch it.
-/

/-- Python's `int(x)` applied to a float: truncation toward zero. -/
def py_int (q : ℚ) : ℤ := if 0 ≤ q then ⌊q⌋ else -⌊-q⌋

namespace ImagePreprocessor

/-- The mutable scaling attributes of `Utiles/ImagePreprocessor.py`'s
`ImagePreprocessor`: `self.original_size`, `self.processed_size` and
`self.scale_factor`, each initialised to `None` in `__init__`. -/
structure ScaleState where
  original_size : Option (ℤ × ℤ)
  processed_size : Option (ℤ × ℤ)
  scale_factor : Option ℚ
deriving Repr, DecidableEq

/-- The state right after `ImagePreprocessor.__init__`: all three attributes
are `None`. -/
def initState : ScaleState :=
  { original_size := none, processed_size := none, scale_factor := none }

/-- `ImagePreprocessor.resize_image` (Utiles/ImagePreprocessor.py, lines
32-66), restricted to the size/scale bookkeeping it performs (the pixel
resampling itself, `Image.resize`, is out of scope).  Given the input image
size `(width, height)` and `max_size`, it returns the state after the call:

* if both dimensions are already `≤ max_size` it records the size unchanged
  and `scale_factor = 1.0`;
* otherwise the larger dimension becomes exactly `max_size`, the other is
  `int(dim * max_size / larger)`, and `scale_factor = max_size / larger`. -/
def resize_image (width height max_size : ℤ) : ScaleState :=
  if width ≤ max_size ∧ height ≤ max_size then
    { original_size := some (width, height)
      processed_size := some (width, height)
      scale_factor := some 1 }
  else if height < width then
    { original_size := some (width, height)
      processed_size := some (max_size, py_int ((height * max_size : ℚ) / width))
      scale_factor := some ((max_size : ℚ) / width) }
  else
    { original_size := some (width, height)
      processed_size := some (py_int ((width * max_size : ℚ) / height), max_size)
      scale_factor := some ((max_size : ℚ) / height) }

/-- `ImagePreprocessor.convert_coordinates_to_original`
(Utiles/ImagePreprocessor.py, lines 210-244).  Raises `ValueError` when the
scaling attributes are still `None` or when the box does not have exactly
four coordinates; otherwise divides every coordinate by `scale_factor` and
clamps it into `[0, original_width]` resp. `[0, original_height]` via
`max(0, min(v, bound))`. -/
def convert_coordinates_to_original (st : ScaleState) (bbox : List ℚ) :
    Except String (List ℚ) :=
  match st.scale_factor, st.original_size with
  | none, _ =>
      .error "缩放信息不可用，请先调用preprocess_image方法"
  | _, none =>
      .error "缩放信息不可用，请先调用preprocess_image方法"
  | some sf, some (w0, h0) =>
      match bbox with
      | [x1, y1, x2, y2] =>
          .ok [max 0 (min (x1 / sf) (w0 : ℚ)),
               max 0 (min (y1 / sf) (h0 : ℚ)),
               max 0 (min (x2 / sf) (w0 : ℚ)),
               max 0 (min (y2 / sf) (h0 : ℚ))]
      | _ => .error "边界框坐标必须包含4个值: [x1, y1, x2, y2]"

/-- `ImagePreprocessor.convert_coordinates_list_to_original`
(Utiles/ImagePreprocessor.py, lines 246-256): the element-wise batch form;
the first failing element's exception propagates. -/
def convert_coordinates_list_to_original (st : ScaleState)
    (bbox_list : List (List ℚ)) : Except String (List (List ℚ)) :=
  bbox_list.mapM (convert_coordinates_to_original st)

/-- The scale factor the shrinking branch of `resize_image` records:
`max_size` divided by the larger dimension. -/
def shrink_scale (width height max_size : ℤ) : ℚ :=
  if height < width then (max_size : ℚ) / width else (max_size : ℚ) / height

/-- A conversion result that is a four-coordinate box lying inside
`[0, w0] × [0, h0]` (x coordinates bounded by `w0`, y coordinates by
`h0`). -/
def resultInBounds (w0 h0 : ℤ) : Except String (List ℚ) → Prop
  | .ok [a, b, c, d] =>
      0 ≤ a ∧ a ≤ (w0 : ℚ) ∧ 0 ≤ b ∧ b ≤ (h0 : ℚ) ∧
      0 ≤ c ∧ c ≤ (w0 : ℚ) ∧ 0 ≤ d ∧ d ≤ (h0 : ℚ)
  | _ => False

instance (w0 h0 : ℤ) (r : Except String (List ℚ)) :
    Decidable (resultInBounds w0 h0 r) :=
  match r with
  | .error _ => isFalse fun h => h
  | .ok [] => isFalse fun h => h
  | .ok [_] => isFalse fun h => h
  | .ok [_, _] => isFalse fun h => h
  | .ok [_, _, _] => isFalse fun h => h
  | .ok [_, _, _, _] => inferInstanceAs (Decidable (_ ∧ _))
  | .ok (_ :: _ :: _ :: _ :: _ :: _) => isFalse fun h => h

end ImagePreprocessor

/-!
## JSON values and `json.loads`

`PreciseSegmentationTest.py` and `Agents/PreciseSegmentationAgent.py` parse
external-service responses with Python's `json.loads`.  `Json` embeds the
decoded Python values (dicts keep insertion order, later duplicate keys
override earlier ones, exactly as `json.loads` behaves); `json_loads` is a
recursive-descent decoder of the JSON grammar returning `none` where Python
raises `json.JSONDecodeError`.  (It accepts a handful of harmless extras
Python rejects, e.g. leading zeros in numbers; no claim depends on those.)
-/

/-- A decoded JSON value (the result of Python's `json.loads`). -/
inductive Json where
  | null : Json
  | bool (b : Bool) : Json
  | num (q : ℚ) : Json
  | str (s : String) : Json
  | arr (elems : List Json) : Json
  | obj (members : List (String × Json)) : Json
deriving Repr

namespace Json

/-- Whitespace accepted between JSON tokens. -/
def isJsonWs (c : Char) : Bool :=
  c = ' ' || c = '\t' || c = '\n' || c = '\r'

/-- Drop leading JSON whitespace. -/
def skipWs : List Char → List Char
  | [] => []
  | c :: cs => if isJsonWs c then skipWs cs else c :: cs

/-- Take a maximal run of decimal digits, as digit values. -/
def takeDigits : List Char → List ℕ × List Char
  | [] => ([], [])
  | c :: cs =>
      if c.isDigit then
        let (ds, rest) := takeDigits cs
        ((c.toNat - 48) :: ds, rest)
      else ([], c :: cs)

/-- The natural number denoted by a digit run. -/
def digitsVal (ds : List ℕ) : ℕ := ds.foldl (fun a d => 10 * a + d) 0

/-- An optional fraction part `.ddd`. -/
def parseFrac : List Char → Option (ℚ × List Char)
  | '.' :: rest =>
      match takeDigits rest with
      | ([], _) => none
      | (fds, rest2) => some ((digitsVal fds : ℚ) / (10 : ℚ) ^ fds.length, rest2)
  | s => some (0, s)

/-- A digit run as an integer. -/
def parsePlainDigits (s : List Char) : Option (ℤ × List Char) :=
  match takeDigits s with
  | ([], _) => none
  | (ds, rest) => some ((digitsVal ds : ℤ), rest)

/-- A digit run with an optional sign. -/
def parseSignedDigits : List Char → Option (ℤ × List Char)
  | '+' :: rest => parsePlainDigits rest
  | '-' :: rest => (parsePlainDigits rest).map fun p => (-p.1, p.2)
  | s => parsePlainDigits s

/-- An optional exponent part `e±ddd`. -/
def parseExp : List Char → Option (ℤ × List Char)
  | 'e' :: rest => parseSignedDigits rest
  | 'E' :: rest => parseSignedDigits rest
  | s => some (0, s)

/-- An unsigned JSON number (integer, fraction and exponent parts).  A plain
integer literal is returned as a bare cast so that its value is a normal
form; the general case combines the parts arithmetically. -/
def parseUnsignedNumber (s : List Char) : Option (ℚ × List Char) :=
  match takeDigits s with
  | ([], _) => none
  | (ids, rest) =>
      match rest with
      | '.' :: _ | 'e' :: _ | 'E' :: _ =>
          match parseFrac rest with
          | none => none
          | some (frac, rest2) =>
              match parseExp rest2 with
              | none => none
              | some (ex, rest3) =>
                  some (((digitsVal ids : ℚ) + frac) * (10 : ℚ) ^ ex, rest3)
      | _ => some ((digitsVal ids : ℚ), rest)

/-- The character denoted by a single-character escape. -/
def escChar : Char → Option Char
  | '"' => some '"'
  | '\\' => some '\\'
  | '/' => some '/'
  | 'b' => some (Char.ofNat 8)
  | 'f' => some (Char.ofNat 12)
  | 'n' => some '\n'
  | 'r' => some '\r'
  | 't' => some '\t'
  | _ => none

/-- Hexadecimal digit value. -/
def hexVal (c : Char) : Option ℕ :=
  if c.isDigit then some (c.toNat - 48)
  else if 'a' ≤ c ∧ c ≤ 'f' then some (c.toNat - 87)
  else if 'A' ≤ c ∧ c ≤ 'F' then some (c.toNat - 55)
  else none

/-- The body of a JSON string after the opening quote, up to the closing
quote (surrogate pairs in `\uXXXX` escapes are decoded code-unit-wise). -/
def parseStringBody : List Char → Option (List Char × List Char)
  | [] => none
  | '"' :: rest => some ([], rest)
  | '\\' :: 'u' :: h1 :: h2 :: h3 :: h4 :: rest => do
      let v1 ← hexVal h1
      let v2 ← hexVal h2
      let v3 ← hexVal h3
      let v4 ← hexVal h4
      let (tail, r) ← parseStringBody rest
      pure (Char.ofNat (((v1 * 16 + v2) * 16 + v3) * 16 + v4) :: tail, r)
  | '\\' :: c :: rest => do
      let e ← escChar c
      let (tail, r) ← parseStringBody rest
      pure (e :: tail, r)
  | c :: rest => do
      let (tail, r) ← parseStringBody rest
      pure (c :: tail, r)

/-- Literal keyword matcher (`true`, `false`, `null`). -/
def matchLit : List Char → List Char → Option (List Char)
  | [], s => some s
  | p :: ps, c :: cs => if c = p then matchLit ps cs else none
  | _ :: _, [] => none

/-- Insertion into a decoded dict: a later duplicate key overrides the
earlier value in place, as Python dict assignment does. -/
def insertMember (ms : List (String × Json)) (k : String) (v : Json) :
    List (String × Json) :=
  if ms.any (fun m => m.1 == k) then
    ms.map (fun m => if m.1 == k then (k, v) else m)
  else ms ++ [(k, v)]

/-- Python `dict` lookup (`d[k]` / `k in d`): first (and, with
`insertMember`, only) binding of the key. -/
def getMember : List (String × Json) → String → Option Json
  | [], _ => none
  | (k2, v) :: rest, k => if k2 = k then some v else getMember rest k

mutual

/-- One JSON value, by mutual recursive descent with an explicit fuel. -/
def parseVal : ℕ → List Char → Option (Json × List Char)
  | 0, _ => none
  | fuel + 1, s =>
      match skipWs s with
      | [] => none
      | '{' :: rest =>
          (match skipWs rest with
           | '}' :: rest2 => some (Json.obj [], rest2)
           | rest2 => parseMembers fuel rest2 [])
      | '[' :: rest =>
          (match skipWs rest with
           | ']' :: rest2 => some (Json.arr [], rest2)
           | rest2 => parseElems fuel rest2 [])
      | '"' :: rest =>
          (parseStringBody rest).map fun p => (Json.str (String.mk p.1), p.2)
      | 't' :: rest => (matchLit ['r', 'u', 'e'] rest).map fun r => (Json.bool true, r)
      | 'f' :: rest => (matchLit ['a', 'l', 's', 'e'] rest).map fun r => (Json.bool false, r)
      | 'n' :: rest => (matchLit ['u', 'l', 'l'] rest).map fun r => (Json.null, r)
      | '-' :: rest => (parseUnsignedNumber rest).map fun p => (Json.num (-p.1), p.2)
      | c :: rest =>
          if c.isDigit then
            (parseUnsignedNumber (c :: rest)).map fun p => (Json.num p.1, p.2)
          else none

/-- The elements of a non-empty JSON array (after `[`). -/
def parseElems : ℕ → List Char → List Json → Option (Json × List Char)
  | 0, _, _ => none
  | fuel + 1, s, acc => do
      let (v, rest) ← parseVal fuel s
      match skipWs rest with
      | ',' :: rest2 => parseElems fuel rest2 (v :: acc)
      | ']' :: rest2 => some (Json.arr (v :: acc).reverse, rest2)
      | _ => none

/-- The members of a non-empty JSON object (after `{`). -/
def parseMembers : ℕ → List Char → List (String × Json) →
    Option (Json × List Char)
  | 0, _, _ => none
  | fuel + 1, s, acc =>
      match skipWs s with
      | '"' :: rest => do
          let (key, rest2) ← parseStringBody rest
          match skipWs rest2 with
          | ':' :: rest3 => do
              let (v, rest4) ← parseVal fuel rest3
              let acc2 := insertMember acc (String.mk key) v
              match skipWs rest4 with
              | ',' :: rest5 => parseMembers fuel rest5 acc2
              | '}' :: rest5 => some (Json.obj acc2, rest5)
              | _ => none
          | _ => none
      | _ => none

end

/-- Python's `json.loads`: decode one JSON value and require only
whitespace after it; `none` models `json.JSONDecodeError`. -/
def json_loads (s : String) : Option Json :=
  match parseVal (2 * s.length + 2) s.toList with
  | some (v, rest) => if (skipWs rest).isEmpty then some v else none
  | none => none

end Json

/-!
Python string primitives used by the parsing helpers, implemented over the
character list so that they evaluate by kernel reduction.  `py_strip`
models `str.strip()` on the ASCII whitespace set (Python also strips some
unicode whitespace; no input here contains any).
-/
namespace PyStr

/-- Whitespace for `str.strip()` (ASCII subset). -/
def pySpace (c : Char) : Bool :=
  c = ' ' || c = '\t' || c = '\n' || c = '\r' ||
  c = Char.ofNat 11 || c = Char.ofNat 12

/-- Python `s.strip()`. -/
def py_strip (s : String) : String :=
  String.mk (((s.toList.dropWhile pySpace).reverse.dropWhile pySpace).reverse)

/-- Does the second list start with the first? -/
def listStartsWith : List Char → List Char → Bool
  | [], _ => true
  | _ :: _, [] => false
  | p :: ps, c :: cs => p = c && listStartsWith ps cs

/-- Python `s.startswith(pat)`. -/
def py_startswith (s pat : String) : Bool :=
  listStartsWith pat.toList s.toList

/-- Python `s.endswith(pat)`. -/
def py_endswith (s pat : String) : Bool :=
  listStartsWith pat.toList.reverse s.toList.reverse

/-- Split a character list at every newline. -/
def splitNl : List Char → List (List Char)
  | [] => [[]]
  | c :: rest =>
      if c = '\n' then [] :: splitNl rest
      else
        match splitNl rest with
        | [] => [[c]]
        | l :: ls => (c :: l) :: ls

/-- Python `s.split('\n')`. -/
def py_split_newline (s : String) : List String :=
  (splitNl s.toList).map String.mk

/-- Python `'\n'.join(ls)`. -/
def joinNl : List String → String
  | [] => ""
  | [l] => l
  | l :: ls => l ++ "\n" ++ joinNl ls

/-- Python `s[3:-3]`. -/
def py_slice3 (s : String) : String :=
  String.mk ((s.toList.drop 3).reverse.drop 3).reverse

end PyStr

namespace PreciseSegmentationTest

/-- The line-collecting loop of `clean_json_from_markdown`
(PreciseSegmentationTest.py, lines 20-43) for text starting with a
` ```json ` fence: skip every line whose stripped form is the opening
fence, collect lines once the fence has been seen, and stop at the first
stripped ` ``` ` line after it. -/
def cleanLines : List String → Bool → List String
  | [], _ => []
  | l :: ls, started =>
      if PyStr.py_strip l = "```json" then cleanLines ls true
      else if PyStr.py_strip l = "```" ∧ started = true then []
      else if started = true then l :: cleanLines ls started
      else cleanLines ls started

/-- `clean_json_from_markdown` (PreciseSegmentationTest.py, lines 20-43; the
same helper is duplicated as `PreciseSegmentationAgent._clean_json_from_markdown`):
strip a leading/trailing markdown code fence before JSON parsing. -/
def clean_json_from_markdown (text : String) : String :=
  let text := PyStr.py_strip text
  if PyStr.py_startswith text "```json" = true then
    PyStr.joinNl (cleanLines (PyStr.py_split_newline text) false)
  else if PyStr.py_startswith text "```" = true ∧
      PyStr.py_endswith text "```" = true then
    PyStr.py_strip (PyStr.py_slice3 text)
  else text

/-- Python's `float(x)` applied to a JSON-decoded value (the
`map(float, bbox)` step of `sentence_to_dict`): numbers pass through,
booleans become 0/1, numeric strings are parsed (modelled with the JSON
number grammar; Python's `float` also accepts forms such as `"+1"` or
`".5"`, which no JSON decoding produces), and anything else raises
`TypeError`/`ValueError`, modelled as `none`. -/
def to_float : Json → Option ℚ
  | .num q => some q
  | .bool b => some (if b then 1 else 0)
  | .str s =>
      match (PyStr.py_strip s).toList with
      | '-' :: cs =>
          match Json.parseUnsignedNumber cs with
          | some (q, []) => some (-q)
          | _ => none
      | cs =>
          match Json.parseUnsignedNumber cs with
          | some (q, []) => some q
          | _ => none
  | _ => none

/-- The per-item validation loop body of `sentence_to_dict`
(PreciseSegmentationTest.py, lines 60-91): a non-dict item, a missing or
non-4-element `bbox_2d`, or non-numeric coordinates are skipped (`none`);
otherwise out-of-order coordinates are swapped into place and written back
as Python ints. -/
def validate_item (item : Json) : Option Json :=
  match item with
  | .obj kvs =>
      match (Json.getMember kvs "bbox_2d").getD (Json.arr []) with
      | .arr [a, b, c, d] =>
          match to_float a, to_float b, to_float c, to_float d with
          | some fx1, some fy1, some fx2, some fy2 =>
              let (x1, x2) := if fx2 < fx1 then (fx2, fx1) else (fx1, fx2)
              let (y1, y2) := if fy2 < fy1 then (fy2, fy1) else (fy1, fy2)
              some (Json.obj (Json.insertMember kvs "bbox_2d"
                (Json.arr [Json.num (py_int x1), Json.num (py_int y1),
                           Json.num (py_int x2), Json.num (py_int y2)])))
          | _, _, _, _ => none
      | _ => none
  | _ => none

/-- `sentence_to_dict` (PreciseSegmentationTest.py, lines 46-100).  Blank
input and any `json.JSONDecodeError` yield the empty dict `{}` (the
function prints a message and never raises for string input); a decoded
list is validated item-wise and wrapped under `"segmentation_results"`;
any other decoded value is returned as-is. -/
def sentence_to_dict (sentence : String) : Json :=
  if PyStr.py_strip sentence = "" then Json.obj []
  else
    match Json.json_loads (clean_json_from_markdown sentence) with
    | none => Json.obj []
    | some (Json.arr items) =>
        Json.obj [("segmentation_results",
                   Json.arr (items.filterMap validate_item))]
    | some parsed => parsed

/-- The `bbox_2d` member of a decoded region, read back as Python ints
(used to state properties of validated regions). -/
def bbox_ints (j : Json) : Option (List ℤ) :=
  match j with
  | .obj kvs =>
      match Json.getMember kvs "bbox_2d" with
      | some (.arr xs) => xs.mapM (fun x =>
          match x with
          | .num q => if q.den = 1 then some q.num else none
          | _ => none)
      | _ => none
  | _ => none

/-- The `bbox_2d` of the first entry under `"segmentation_results"` of a
`sentence_to_dict` result, as integers. -/
def first_segmentation_bbox (j : Json) : Option (List ℤ) :=
  match j with
  | .obj [("segmentation_results", .arr (item :: _))] => bbox_ints item
  | _ => none

/-- An optional `bbox_2d` value that is a four-number box in the
normalized order `x1 ≤ x2 ∧ y1 ≤ y2`. -/
def bbox_ordered : Option Json → Prop
  | some (.arr [.num a, .num b, .num c, .num d]) => a ≤ c ∧ b ≤ d
  | _ => False

/-- A region dict whose `bbox_2d` is a four-number box in the normalized
order `x1 ≤ x2 ∧ y1 ≤ y2`. -/
def normalized_box (j : Json) : Prop :=
  bbox_ordered (match j with
    | .obj kvs => Json.getMember kvs "bbox_2d"
    | _ => none)

end PreciseSegmentationTest

namespace PreciseSegmentationAgent

/-- The coordinate list of a decoded `bbox_2d` value as passed to
`ImagePreprocessor.convert_coordinates_to_original` (numbers and booleans
divide by the scale factor; any other element raises `TypeError` when
divided, modelled as `none`). -/
def bbox_to_floats : Json → Option (List ℚ)
  | .arr xs => xs.mapM (fun j =>
      match j with
      | .num q => some q
      | .bool b => some (if b then (1 : ℚ) else 0)
      | _ => none)
  | _ => none

/-- `PreciseSegmentationAgent.convert_coordinates_to_original`
(Agents/PreciseSegmentationAgent.py, lines 87-114).  `self.scale_info` and
the preprocessor's own scaling attributes are set together by
`preprocess_image`, so one optional `ScaleState` models both.  When
`scale_info` is `None` the method prints a warning and returns the
segmentation results *unconverted*; otherwise each dict item carrying a
`bbox_2d` key has its box mapped through
`ImagePreprocessor.convert_coordinates_to_original` (whose `ValueError`,
e.g. for a box without exactly four coordinates, propagates), and other
items are appended unchanged. -/
def convert_coordinates_to_original
    (scale_info : Option ImagePreprocessor.ScaleState)
    (segmentation_results : List Json) : Except String (List Json) :=
  match scale_info with
  | none => .ok segmentation_results
  | some st =>
      segmentation_results.mapM fun r =>
        match r with
        | .obj kvs =>
            match Json.getMember kvs "bbox_2d" with
            | some bboxJson =>
                match bbox_to_floats bboxJson with
                | some qs =>
                    (ImagePreprocessor.convert_coordinates_to_original st qs).map
                      fun newBox => Json.obj (Json.insertMember kvs "bbox_2d"
                        (Json.arr (newBox.map Json.num)))
                | none => .error "TypeError: unsupported operand type(s) for /"
            | none => .ok r
        | _ => .ok r

end PreciseSegmentationAgent

/-!
## The `src/` package: data model, agents and pipeline

Embedding of `src/models/data_models.py`, the pure decision logic of
`src/agents/interaction_strategist.py`, the failure containment of
`src/agents/scene_analyst.py`, and the stage sequencing of
`src/core/pipeline.py`.  The external model calls (vision tool, LLM) are
boundaries: their outcomes are parameters of the embedded functions.
Pydantic constructor validation matters on one path — `DetectedObject` —
and is modelled by `DetectedObject.validate`; the other models are only
ever constructed from arguments of their declared field types, where the
constructors cannot fail.
-/

namespace Core

/-!
The values of the `ObjectCategory` enum (data_models.py).  Because
`DetectedObject.Config.use_enum_values = True`, categories are carried as
these strings.
-/
namespace ObjectCategory

def CUP : String := "杯子"
def SCISSORS : String := "剪刀"
def BOTTLE : String := "瓶子"
def KNIFE : String := "刀"
def FORK : String := "叉子"
def SPOON : String := "勺子"
def PLATE : String := "盘子"
def BOWL : String := "碗"
def BOOK : String := "书"
def PEN : String := "笔"
def PHONE : String := "手机"
def UNKNOWN : String := "未知物体"

/-- All enum values; `ObjectCategory(x)` raises `ValueError` for any other
string. -/
def valid : List String :=
  [CUP, SCISSORS, BOTTLE, KNIFE, FORK, SPOON, PLATE, BOWL, BOOK, PEN, PHONE,
   UNKNOWN]

end ObjectCategory

/-- `BoundingBox` (data_models.py, lines 30-44): four integer corner
coordinates and a confidence; the model declares no validator, so the
stored coordinates are exactly the constructor arguments. -/
structure BoundingBox where
  x1 : ℤ
  y1 : ℤ
  x2 : ℤ
  y2 : ℤ
  confidence : ℚ := 1
deriving Repr, DecidableEq

/-- `BoundingBox.center`: integer midpoint (Python `//`). -/
def BoundingBox.center (b : BoundingBox) : ℤ × ℤ :=
  ((b.x1 + b.x2) / 2, (b.y1 + b.y2) / 2)

/-- `BoundingBox.area`. -/
def BoundingBox.area (b : BoundingBox) : ℤ :=
  (b.x2 - b.x1) * (b.y2 - b.y1)

/-- `DetectedObject` (data_models.py).  `category` is carried as the
enum's string value because of `use_enum_values`; `bounding_box` is a
required `BoundingBox`.  Construction goes through the pydantic
constructor, modelled by `DetectedObject.validate` below. -/
structure DetectedObject where
  object_id : String
  label : String
  category : String := ObjectCategory.UNKNOWN
  bounding_box : BoundingBox
  confidence : ℚ := 1
  description : Option String := none
deriving Repr, DecidableEq

/-- The `ValidationError` message for an invalid `category` argument (the
exact pydantic text differs; the embedding carries this abbreviated
form). -/
def category_validation_error (category : String) : String :=
  "pydantic ValidationError: DetectedObject.category: " ++ category ++
  " is not a valid ObjectCategory value"

/-- The pydantic constructor `DetectedObject(...)`: the declared field
types are enforced at construction — `category` must be a valid
`ObjectCategory` value (stored as its string) and `bounding_box` is
required and must be a `BoundingBox`, so passing `None` or an invalid
category raises `pydantic.ValidationError`.  (Pydantic collects all field
errors into one exception; the embedding reports the first.) -/
def DetectedObject.validate (object_id label category : String)
    (bounding_box : Option BoundingBox) (confidence : ℚ)
    (description : Option String) : Except String DetectedObject :=
  if ObjectCategory.valid.contains category = false then
    .error (category_validation_error category)
  else
    match bounding_box with
    | none =>
        .error "pydantic ValidationError: DetectedObject.bounding_box: field required"
    | some bb =>
        .ok { object_id := object_id, label := label, category := category,
              bounding_box := bb, confidence := confidence,
              description := description }

/-- `SceneAnalysisResult` (data_models.py); `model_post_init` sets
`total_objects = len(objects)`. -/
structure SceneAnalysisResult where
  image_path : String
  objects : List DetectedObject
  total_objects : ℕ
  analysis_timestamp : String
deriving Repr, DecidableEq

/-- `UserIntent` (data_models.py). -/
structure UserIntent where
  raw_instruction : String
  intent_type : String
  target_object_id : Option String := none
  priority_level : ℤ := 1
  safety_requirements : List String := []
deriving Repr, DecidableEq

/-- `FunctionalPart` (data_models.py). -/
structure FunctionalPart where
  part_name : String
  function : String
  safety_score : ℚ := 1
  ergonomic_score : ℚ := 1
  grasp_priority : ℤ := 1
deriving Repr, DecidableEq

/-- `InteractionStrategy` (data_models.py). -/
structure InteractionStrategy where
  target_object : DetectedObject
  target_part : FunctionalPart
  strategy_reasoning : String
  safety_considerations : List String := []
  execution_instructions : String
deriving Repr, DecidableEq

/-- `SegmentationMask` (data_models.py). -/
structure SegmentationMask where
  mask_array : List (List ℤ)
  width : ℤ
  height : ℤ
  target_object_id : String
  target_part_name : String
  mask_confidence : ℚ := 1
deriving Repr, DecidableEq

/-- `SegmentationResult` (data_models.py, lines 130-139): what
`GraspMindPipeline.process` hands back to the caller.  Note the model has
no field naming a pipeline stage. -/
structure SegmentationResult where
  image_path : String
  mask : SegmentationMask
  strategy_used : InteractionStrategy
  processing_time : ℚ
  success : Bool := true
  error_message : Option String := none
  output_mask_path : Option String := none
deriving Repr, DecidableEq

/-- `ProcessingPipeline` (data_models.py): the per-run state tracker.
`current_data` maps names to arbitrary Python objects; only its keys are
modelled. -/
structure ProcessingPipeline where
  stage : String
  completed_stages : List String := []
  current_data_keys : List String := []
  errors : List String := []
  warnings : List String := []
deriving Repr, DecidableEq

/-- Association-list lookup, modelling Python `dict.get`. -/
def assocGet {α : Type} : List (String × α) → String → Option α
  | [], _ => none
  | (k2, v) :: rest, k => if k2 = k then some v else assocGet rest k

/-!
### InteractionStrategist (src/agents/interaction_strategist.py)

`analyze_user_intent` ends in an external LLM call and catches every
exception, so it is total; its resulting `UserIntent` is a parameter of
the pipeline embedding.  Everything from `create_interaction_strategy`
down is pure decision logic, embedded from the source.
-/

/-- `InteractionStrategist._build_functional_parts_knowledge`
(interaction_strategist.py, lines 74-148). -/
def functional_parts_knowledge : List (String × List FunctionalPart) :=
  [(ObjectCategory.CUP,
    [{ part_name := "杯柄", function := "提供安全的抓握点，避免接触热液体",
       safety_score := 95/100, ergonomic_score := 9/10, grasp_priority := 1 },
     { part_name := "杯身", function := "容纳液体的主体部分",
       safety_score := 3/10, ergonomic_score := 5/10, grasp_priority := 3 }]),
   (ObjectCategory.SCISSORS,
    [{ part_name := "握柄", function := "手指插入的环形把手，提供安全抓握",
       safety_score := 9/10, ergonomic_score := 95/100, grasp_priority := 1 },
     { part_name := "刀刃", function := "切割部分",
       safety_score := 1/10, ergonomic_score := 1/10, grasp_priority := 5 }]),
   (ObjectCategory.KNIFE,
    [{ part_name := "刀柄", function := "手持部分，提供安全控制",
       safety_score := 85/100, ergonomic_score := 9/10, grasp_priority := 1 },
     { part_name := "刀刃", function := "切割部分",
       safety_score := 5/100, ergonomic_score := 1/10, grasp_priority := 5 }]),
   (ObjectCategory.BOTTLE,
    [{ part_name := "瓶颈", function := "便于抓握的细窄部分",
       safety_score := 9/10, ergonomic_score := 85/100, grasp_priority := 1 },
     { part_name := "瓶身", function := "容纳液体的主体",
       safety_score := 7/10, ergonomic_score := 6/10, grasp_priority := 2 }])]

/-- The `intent_to_category` table inside `_select_target_object`
(interaction_strategist.py, lines 308-315). -/
def intent_to_category : List (String × List String) :=
  [("饮水", [ObjectCategory.CUP, ObjectCategory.BOTTLE]),
   ("用餐", [ObjectCategory.FORK, ObjectCategory.SPOON, ObjectCategory.KNIFE]),
   ("剪切", [ObjectCategory.SCISSORS]),
   ("写作", [ObjectCategory.PEN]),
   ("阅读", [ObjectCategory.BOOK]),
   ("通讯", [ObjectCategory.PHONE])]

/-- Python's `max(objects, key=lambda x: x.confidence)`: the first object
of maximal confidence. -/
def pyMaxByConfidence (first : DetectedObject) (rest : List DetectedObject) :
    DetectedObject :=
  rest.foldl (fun best o => if best.confidence < o.confidence then o else best)
    first

/-- `InteractionStrategist._select_target_object`
(interaction_strategist.py, lines 300-331): an explicitly named (truthy)
target id wins if present in the scene; otherwise the first object whose
category matches the intent type's preferred categories; otherwise the
most confident object; `None` when the scene has no objects. -/
def select_target_object (intent : UserIntent)
    (scene : SceneAnalysisResult) : Option DetectedObject :=
  let byId : Option DetectedObject :=
    match intent.target_object_id with
    | some tid =>
        if tid = "" then none
        else scene.objects.find? (fun o => o.object_id == tid)
    | none => none
  match byId with
  | some o => some o
  | none =>
      let cats := (assocGet intent_to_category intent.intent_type).getD []
      match cats.findSome?
          (fun c => scene.objects.find? (fun o => o.category == c)) with
      | some o => some o
      | none =>
          match scene.objects with
          | [] => none
          | o :: rest => some (pyMaxByConfidence o rest)

/-- Python's `min(parts, key=lambda x: x.grasp_priority)`: first part of
minimal priority. -/
def pyMinByPriority (first : FunctionalPart) (rest : List FunctionalPart) :
    FunctionalPart :=
  rest.foldl
    (fun best p => if p.grasp_priority < best.grasp_priority then p else best)
    first

/-- Python's `max(parts, key=lambda x: x.safety_score)`: first part of
maximal safety score. -/
def pyMaxBySafety (first : FunctionalPart) (rest : List FunctionalPart) :
    FunctionalPart :=
  rest.foldl
    (fun best p => if best.safety_score < p.safety_score then p else best)
    first

/-- `InteractionStrategist._select_functional_part`
(interaction_strategist.py, lines 333-355): knowledge-table lookup with a
generic fallback part, preferring the lowest-priority safe part
(`safety_score > 0.5`), else the relatively safest one.  It never returns
`None` despite its `Optional` annotation. -/
def select_functional_part (target : DetectedObject) :
    Option FunctionalPart :=
  let available := (assocGet functional_parts_knowledge target.category).getD []
  match available with
  | [] =>
      some { part_name := "主体", function := "物体的主要部分",
             safety_score := 7/10, ergonomic_score := 7/10,
             grasp_priority := 1 }
  | _ =>
      match available.filter (fun p => decide ((1 : ℚ)/2 < p.safety_score)) with
      | [] =>
          match available with
          | [] => none
          | p :: ps => some (pyMaxBySafety p ps)
      | p :: ps => some (pyMinByPriority p ps)

/-- Two-decimal rendering of a score, for the `:.2f` format specifiers in
the strategy strings (every knowledge-table score is an exact hundredth,
where this agrees with Python's float formatting). -/
def format2f (q : ℚ) : String :=
  let n : ℤ := round (q * 100)
  let sign := if n < 0 then "-" else ""
  let m := n.natAbs
  sign ++ toString (m / 100) ++ "." ++
    (if m % 100 < 10 then "0" else "") ++ toString (m % 100)

/-- `InteractionStrategist._generate_strategy_reasoning`
(interaction_strategist.py, lines 357-366). -/
def generate_strategy_reasoning (intent : UserIntent)
    (target : DetectedObject) (part : FunctionalPart) : String :=
  "\n基于用户意图\"" ++ intent.intent_type ++ "\"，选择抓取" ++ target.label ++
  "来满足需求。\n选择" ++ part.part_name ++ "作为抓取点，因为" ++ part.function ++
  "。\n该部件的安全评分为" ++ format2f part.safety_score ++ "，人体工学评分为" ++
  format2f part.ergonomic_score ++ "，\n确保了操作的安全性和舒适性。\n"

/-- `InteractionStrategist._generate_safety_considerations`
(interaction_strategist.py, lines 368-395). -/
def generate_safety_considerations (target : DetectedObject)
    (part : FunctionalPart) : List String :=
  let base := ["抓取" ++ part.part_name ++ "以确保安全操作",
               "避免接触物体的危险部位",
               "确保抓取力度适中，避免损坏物体",
               "注意递送时的人体工学姿态"]
  if target.category = ObjectCategory.SCISSORS then
    base ++ ["绝对避免接触刀刃部分", "递送时刀尖朝下，握柄朝向用户"]
  else if target.category = ObjectCategory.CUP then
    base ++ ["检查是否有热液体", "保持杯子水平，避免洒漏"]
  else if target.category = ObjectCategory.KNIFE then
    base ++ ["严格避免接触刀刃", "递送时刀柄朝向用户，刀刃朝下"]
  else base

/-- `InteractionStrategist._generate_execution_instructions`
(interaction_strategist.py, lines 397-406). -/
def generate_execution_instructions (target : DetectedObject)
    (part : FunctionalPart) : String :=
  "\n目标物体: " ++ target.label ++ "\n目标部件: " ++ part.part_name ++
  "\n抓取策略: 精确定位并分割" ++ target.label ++ "的" ++ part.part_name ++
  "部分\n安全要求: 确保抓取点安全可靠，符合人体工学设计" ++
  "\n递送方式: 以适当的姿态将物体递给用户，确保用户能够安全接收\n"

/-- `InteractionStrategist.create_interaction_strategy`
(interaction_strategist.py, lines 190-240): `None` when no target object
or no functional part can be chosen (its internal `try` also maps any
exception to `None`, so it is total). -/
def create_interaction_strategy (intent : UserIntent)
    (scene : SceneAnalysisResult) : Option InteractionStrategy :=
  match select_target_object intent scene with
  | none => none
  | some target =>
      match select_functional_part target with
      | none => none
      | some part =>
          some { target_object := target, target_part := part,
                 strategy_reasoning :=
                   generate_strategy_reasoning intent target part,
                 safety_considerations :=
                   generate_safety_considerations target part,
                 execution_instructions :=
                   generate_execution_instructions target part }

/-!
### SceneAnalyst (src/agents/scene_analyst.py)
-/

/-- The `bounding_box` dict of one detected object as returned by the
vision tool; a `none` field models a missing key (`KeyError` on access) or
a value of an unconvertible type.  `confidence` is read with
`.get("confidence", 1.0)`. -/
structure RawBoundingBox where
  x1 : Option ℤ
  y1 : Option ℤ
  x2 : Option ℤ
  y2 : Option ℤ
  confidence : Option ℚ
deriving Repr, DecidableEq

/-- One object dict from the vision tool's detection result
(`detection_result["objects"]` elements). -/
structure RawDetectedObject where
  bounding_box : Option RawBoundingBox
  object_id : Option String
  label : Option String
  category : Option String
  confidence : Option ℚ
  description : Option String
deriving Repr, DecidableEq

/-- The dict returned by `VisionAnalysisTool._run("detect_objects", path)`:
`success` is read with `.get("success", False)` and `objects` with
`.get("objects", [])`. -/
structure DetectionResult where
  success : Bool
  error : Option String
  objects : List RawDetectedObject
deriving Repr, DecidableEq

/-- `ObjectCategory(s)`: the value itself when `s` is one of the enum's
values, otherwise a `ValueError` (modelled as `none`). -/
def parse_category (s : String) : Option String :=
  if ObjectCategory.valid.contains s then some s else none

/-- The per-object conversion loop body of `SceneAnalyst.analyze_scene`
(scene_analyst.py, lines 104-136): any exception while reading the dict
(missing key, invalid category) or from the pydantic constructors skips
just that object.  The `DetectedObject(...)` call goes through the
pydantic constructor `DetectedObject.validate`; its category argument has
already passed `ObjectCategory(...)` and its box is a `BoundingBox`, so it
succeeds on every object that reaches it. -/
def parse_detected_object (r : RawDetectedObject) : Option DetectedObject := do
  let bd ← r.bounding_box
  let x1 ← bd.x1
  let y1 ← bd.y1
  let x2 ← bd.x2
  let y2 ← bd.y2
  let bbox : BoundingBox :=
    { x1 := x1, y1 := y1, x2 := x2, y2 := y2,
      confidence := bd.confidence.getD 1 }
  let category ← parse_category (r.category.getD ObjectCategory.UNKNOWN)
  let oid ← r.object_id
  let lab ← r.label
  (DetectedObject.validate oid lab category (some bbox)
    (r.confidence.getD 1) r.description).toOption

/-- The run-dependent outcomes of the external operations
`SceneAnalyst.analyze_scene` performs. -/
structure SceneDeps where
  /-- `image_processor.load_image(path)` returned a non-`None` image. -/
  load_image_ok : Bool
  /-- `validate_image_quality` verdict; only logged. -/
  quality_good : Bool
  /-- Outcome of `vision_tool._run("detect_objects", path)`; `.error`
  models the call itself raising. -/
  detection : Except String DetectionResult
  /-- `datetime.now().isoformat()`. -/
  timestamp : String

/-- A `SceneAnalysisResult` with no objects, as built by the `except`
branch of `analyze_scene`. -/
def empty_scene_result (path ts : String) : SceneAnalysisResult :=
  { image_path := path, objects := [], total_objects := 0,
    analysis_timestamp := ts }

/-- `SceneAnalyst.analyze_scene` (scene_analyst.py, lines 76-159).  The
whole body is wrapped in `try/except`, and the `except` branch returns an
empty-objects result, so the function is total: an unreadable image, a
raising vision call, or an unsuccessful detection all yield the same shape
of value as a genuinely empty scene. -/
def analyze_scene (deps : SceneDeps) (image_path : String) :
    SceneAnalysisResult :=
  if deps.load_image_ok = false then
    empty_scene_result image_path deps.timestamp
  else
    match deps.detection with
    | .error _ => empty_scene_result image_path deps.timestamp
    | .ok det =>
        if det.success = false then
          empty_scene_result image_path deps.timestamp
        else
          let objects := det.objects.filterMap parse_detected_object
          { image_path := image_path, objects := objects,
            total_objects := objects.length,
            analysis_timestamp := deps.timestamp }

/-- One of the internal failures `analyze_scene`'s `try` block can hit: an
unloadable image, a raising vision call, or an unsuccessful detection
result. -/
def scene_failed (deps : SceneDeps) : Prop :=
  deps.load_image_ok = false ∨
  match deps.detection with
  | .error _ => True
  | .ok det => det.success = false

/-!
### GraspMindPipeline (src/core/pipeline.py)

Each `_stage_*` method mutates the shared `ProcessingPipeline` and either
returns the stage output or re-raises after recording the failure; the
embedding threads the pipeline value and returns
`Except (exception message × pipeline) (output × pipeline)`.
-/

/-- The `ProcessingPipeline` created at the top of `process`. -/
def initial_pipeline : ProcessingPipeline :=
  { stage := "初始化", completed_stages := [], current_data_keys := [],
    errors := [], warnings := [] }

/-- `GraspMindPipeline._stage_scene_analysis` (pipeline.py, lines 233-266),
parameterized by the outcome of `scene_analyst.analyze_scene`.  An empty
`objects` list only logs a warning; the stage still completes. -/
def stage_scene_analysis (sceneOutcome : Except String SceneAnalysisResult)
    (p : ProcessingPipeline) :
    Except (String × ProcessingPipeline)
      (SceneAnalysisResult × ProcessingPipeline) :=
  match sceneOutcome with
  | .ok scene =>
      .ok (scene,
        { p with stage := "场景分析",
                 completed_stages := p.completed_stages ++ ["场景分析"],
                 current_data_keys := p.current_data_keys ++ ["scene_result"] })
  | .error e =>
      .error (e, { p with stage := "场景分析",
                          errors := p.errors ++ ["场景分析失败: " ++ e] })

/-- `GraspMindPipeline._stage_strategy_planning` (pipeline.py, lines
268-316).  `analyze_user_intent` is total (it catches every exception);
the `UserIntent` it produced is a parameter.  A `None` strategy raises
`"无法制定有效的交互策略"`, which the stage records and re-raises. -/
def stage_strategy_planning (intent : UserIntent)
    (scene : SceneAnalysisResult) (p : ProcessingPipeline) :
    Except (String × ProcessingPipeline)
      (InteractionStrategy × ProcessingPipeline) :=
  match create_interaction_strategy intent scene with
  | none =>
      .error ("无法制定有效的交互策略",
        { p with stage := "策略规划",
                 errors := p.errors ++ ["策略规划失败: 无法制定有效的交互策略"] })
  | some strat =>
      .ok (strat,
        { p with stage := "策略规划",
                 completed_stages := p.completed_stages ++ ["策略规划"],
                 current_data_keys :=
                   p.current_data_keys ++ ["user_intent", "strategy"] })

/-- The cause the segmentation stage raises for an unsuccessful result:
`segmentation_result.error_message or "分割失败"` (Python `or`: an absent
or empty message falls back to the default). -/
def segmentation_cause (res : SegmentationResult) : String :=
  match res.error_message with
  | some m => if m = "" then "分割失败" else m
  | none => "分割失败"

/-- `GraspMindPipeline._stage_precision_segmentation` (pipeline.py, lines
318-356), parameterized by the outcome of
`precision_segmenter.segment_target_part`.  An unsuccessful result raises
`segmentation_result.error_message or "分割失败"`. -/
def stage_precision_segmentation
    (segOutcome : Except String SegmentationResult)
    (p : ProcessingPipeline) :
    Except (String × ProcessingPipeline)
      (SegmentationResult × ProcessingPipeline) :=
  match segOutcome with
  | .error e =>
      .error (e, { p with stage := "精准分割",
                          errors := p.errors ++ ["精准分割失败: " ++ e] })
  | .ok res =>
      if res.success then
        .ok (res,
          { p with stage := "精准分割",
                   completed_stages := p.completed_stages ++ ["精准分割"],
                   current_data_keys :=
                     p.current_data_keys ++ ["segmentation_result"] })
      else
        .error (segmentation_cause res,
          { p with stage := "精准分割",
                   errors := p.errors ++
                     ["精准分割失败: " ++ segmentation_cause res] })

/-- The `except` branch of `process` (pipeline.py, lines 153-192), given
the message `e` of the exception being handled.  It intends to return an
empty mask, a dummy strategy, `success=False` and `error_message=str(e)`,
but it first constructs `DetectedObject(object_id="error", label="错误",
bounding_box=None, category="未知")` — and pydantic rejects both arguments
("未知" is not an `ObjectCategory` value (that value is "未知物体") and
`bounding_box` is required), so the branch raises `ValidationError` and
the intended failure result is never built. -/
def except_branch (image_path : String) (total_time : ℚ) (e : String) :
    Except String SegmentationResult :=
  match DetectedObject.validate "error" "错误" "未知" none 1 none with
  | .error ve => .error ve
  | .ok target =>
      .ok { image_path := image_path,
            mask := { mask_array := [], width := 0, height := 0,
                      target_object_id := "error",
                      target_part_name := "error" },
            strategy_used :=
              { target_object := target,
                target_part := { part_name := "错误", function := "错误" },
                strategy_reasoning := "处理失败",
                execution_instructions := "无法执行" },
            processing_time := total_time,
            success := false,
            error_message := some e }

/-- `process`'s handling of a stage failure with cause `e`: run the
`except` branch; whatever escapes it (in fact always the
`ValidationError`) propagates to the caller together with the run's
pipeline state at that moment. -/
def handle_failure (image_path : String) (total_time : ℚ) (e : String)
    (p : ProcessingPipeline) :
    Except (String × ProcessingPipeline)
      (SegmentationResult × ProcessingPipeline) :=
  match except_branch image_path total_time e with
  | .error ve => .error (ve, p)
  | .ok res => .ok (res, p)

/-- The external-world outcomes one `process(image_path, user_instruction)`
call observes. -/
structure RunInputs where
  image_path : String
  user_instruction : String
  /-- Outcome of `_validate_inputs` (filesystem and format checks). -/
  validate_ok : Bool
  /-- Outcome of `scene_analyst.analyze_scene`. -/
  sceneOutcome : Except String SceneAnalysisResult
  /-- The `UserIntent` produced by `analyze_user_intent`. -/
  intent : UserIntent
  /-- Outcome of `precision_segmenter.segment_target_part`, given the
  strategy the pipeline passes it. -/
  segOutcome : InteractionStrategy → Except String SegmentationResult
  /-- Wall-clock duration (only copied into the result). -/
  total_time : ℚ

/-- `GraspMindPipeline.process` (pipeline.py, lines 103-192): the three
stages in order, any exception short-circuiting to the `except` branch.
`.ok` carries the returned result; `.error` models an exception escaping
`process` itself (the `ValidationError` raised inside the `except`
handler).  Both are paired with the run's internal `ProcessingPipeline`
state at that moment, which the embedding exposes for specification. -/
def process (inp : RunInputs) :
    Except (String × ProcessingPipeline)
      (SegmentationResult × ProcessingPipeline) :=
  if inp.validate_ok = false then
    handle_failure inp.image_path inp.total_time "输入验证失败"
      initial_pipeline
  else
    match stage_scene_analysis inp.sceneOutcome initial_pipeline with
    | .error (e, p) => handle_failure inp.image_path inp.total_time e p
    | .ok (scene, p) =>
        match stage_strategy_planning inp.intent scene p with
        | .error (e, p) => handle_failure inp.image_path inp.total_time e p
        | .ok (strat, p) =>
            match stage_precision_segmentation (inp.segOutcome strat) p with
            | .error (e, p) => handle_failure inp.image_path inp.total_time e p
            | .ok (res, p) => .ok (res, p)

/-- A run rejected by `_validate_inputs` (e.g. a missing image file),
used to exercise the failure path of `process`. -/
def sample_invalid_run : RunInputs :=
  { image_path := "missing.jpg"
    user_instruction := "请拿杯子"
    validate_ok := false
    sceneOutcome := .error "unused"
    intent := { raw_instruction := "请拿杯子", intent_type := "饮水" }
    segOutcome := fun _ => .error "unused"
    total_time := 0 }

end Core

/-! ## Theorems -/

/-! ### Shared helper lemmas -/

theorem py_int_intCast (n : ℤ) : py_int (n : ℚ) = n := by
  unfold py_int
  split_ifs with h
  · exact Int.floor_intCast n
  · rw [← Int.cast_neg, Int.floor_intCast]; omega

theorem py_int_mono {q r : ℚ} (h : q ≤ r) : py_int q ≤ py_int r := by
  unfold py_int
  split_ifs with hq hr hr
  · exact Int.floor_le_floor h
  · exact absurd (le_trans hq h) hr
  · have h1 : ⌊-q⌋ ≥ 0 := Int.floor_nonneg.mpr (by linarith)
    have h2 : (0 : ℤ) ≤ ⌊r⌋ := Int.floor_nonneg.mpr hr
    omega
  · have : ⌊-r⌋ ≤ ⌊-q⌋ := Int.floor_le_floor (by linarith)
    omega

/-!
### C2 — scale computation is a no-op within the bound
-/

/-- C2: for every original size `(width, height)` with both dimensions at
most `max_size`, `resize_image` returns the image unresized, recording
`processed_size` equal to the original size and `scale_factor = 1.0`. -/
theorem resize_image_noop (w h m : ℤ) (hw : w ≤ m) (hh : h ≤ m) :
    ImagePreprocessor.resize_image w h m =
      { original_size := some (w, h), processed_size := some (w, h),
        scale_factor := some 1 } := by
  unfold ImagePreprocessor.resize_image
  rw [if_pos ⟨hw, hh⟩]

/-- Witness for C2 at the concrete size 800 × 600 with the default bound
1024. -/
theorem resize_image_noop_witness :
    (800 : ℤ) ≤ 1024 ∧ (600 : ℤ) ≤ 1024 ∧
    ImagePreprocessor.resize_image 800 600 1024 =
      { original_size := some (800, 600), processed_size := some (800, 600),
        scale_factor := some 1 } :=
  ⟨by decide, by decide,
   resize_image_noop 800 600 1024 (by decide) (by decide)⟩

/-!
### C3 — the non-binding dimension is truncated, not rounded
-/

/-- C3 counterexample: for the original size 1500 × 1000 and bound 1024
the code computes the non-binding dimension with `int(...)` (truncation
toward zero), producing 682, while `round(1000 * 1024 / 1500)` — the
formula the claim states — is 683.  Consequently the recorded working size
also differs from `round(original_size * scale_factor)`. -/
theorem resize_image_rounds_cex :
    (ImagePreprocessor.resize_image 1500 1000 1024).processed_size =
      some (1024, 682) ∧
    round ((1000 * 1024 : ℚ) / 1500) = 683 ∧
    (682 : ℤ) ≠ 683 := by
  refine ⟨?_, by norm_num [round_eq], by decide⟩
  have h1 : ¬((1500 : ℤ) ≤ 1024 ∧ (1000 : ℤ) ≤ 1024) := by decide
  have h2 : (1000 : ℤ) < 1500 := by decide
  rw [ImagePreprocessor.resize_image, if_neg h1, if_pos h2]
  norm_num [py_int]

/-- C3 as amended: when a dimension exceeds the bound, the binding (larger)
dimension becomes exactly the bound, the non-binding one becomes
`int(dim * bound / larger)` — truncation toward zero, i.e. floor for these
non-negative values — so the recorded working size is
`int(original_size * scale_factor)` componentwise, and the recorded
`scale_factor = bound / larger` lies in `(0, 1]`. -/
theorem resize_image_shrink (w h m : ℤ) (hw : 0 < w) (hh : 0 < h)
    (hm : 0 < m) (hex : m < w ∨ m < h) :
    (ImagePreprocessor.resize_image w h m).scale_factor =
      some (ImagePreprocessor.shrink_scale w h m) ∧
    0 < ImagePreprocessor.shrink_scale w h m ∧
    ImagePreprocessor.shrink_scale w h m ≤ 1 ∧
    (ImagePreprocessor.resize_image w h m).processed_size =
      some (py_int ((w : ℚ) * ImagePreprocessor.shrink_scale w h m),
            py_int ((h : ℚ) * ImagePreprocessor.shrink_scale w h m)) ∧
    py_int ((max w h : ℚ) * ImagePreprocessor.shrink_scale w h m) = m := by
  rcases lt_or_le h w with hhw | hwh
  · have hmw : m < w := hex.elim id fun hmh => hmh.trans hhw
    have hcond : ¬(w ≤ m ∧ h ≤ m) := fun hc => absurd hc.1 (not_le.mpr hmw)
    have hw0 : (w : ℚ) ≠ 0 := Int.cast_ne_zero.mpr hw.ne'
    have hwm : (w : ℚ) * ((m : ℚ) / (w : ℚ)) = (m : ℚ) :=
      mul_div_cancel₀ _ hw0
    rw [ImagePreprocessor.resize_image, ImagePreprocessor.shrink_scale,
        if_neg hcond, if_pos hhw, if_pos hhw]
    refine ⟨rfl, ?_, ?_, ?_, ?_⟩
    · exact div_pos (by exact_mod_cast hm) (by exact_mod_cast hw)
    · rw [div_le_one (by exact_mod_cast hw)]
      exact_mod_cast hmw.le
    · rw [hwm, py_int_intCast, mul_div_assoc]
    · have hmax : (↑w ⊔ ↑h : ℚ) = (w : ℚ) :=
        max_eq_left (by exact_mod_cast hhw.le)
      rw [hmax, hwm, py_int_intCast]
  · have hmh : m < h := hex.elim (fun hmw => hmw.trans_le hwh) id
    have hcond : ¬(w ≤ m ∧ h ≤ m) := fun hc => absurd hc.2 (not_le.mpr hmh)
    have hh0 : (h : ℚ) ≠ 0 := Int.cast_ne_zero.mpr hh.ne'
    have hhm : (h : ℚ) * ((m : ℚ) / (h : ℚ)) = (m : ℚ) :=
      mul_div_cancel₀ _ hh0
    rw [ImagePreprocessor.resize_image, ImagePreprocessor.shrink_scale,
        if_neg hcond, if_neg (not_lt.mpr hwh), if_neg (not_lt.mpr hwh)]
    refine ⟨rfl, ?_, ?_, ?_, ?_⟩
    · exact div_pos (by exact_mod_cast hm) (by exact_mod_cast hh)
    · rw [div_le_one (by exact_mod_cast hh)]
      exact_mod_cast hmh.le
    · rw [hhm, py_int_intCast, mul_div_assoc]
    · have hmax : (↑w ⊔ ↑h : ℚ) = (h : ℚ) :=
        max_eq_right (by exact_mod_cast hwh)
      rw [hmax, hhm, py_int_intCast]

/-- Witness for the amended C3 at the concrete size 1500 × 1000 and bound
1024 (the counterexample's input). -/
theorem resize_image_shrink_witness :
    (0 : ℤ) < 1500 ∧ (0 : ℤ) < 1000 ∧ (0 : ℤ) < 1024 ∧
    ((1024 : ℤ) < 1500 ∨ (1024 : ℤ) < 1000) ∧
    ((ImagePreprocessor.resize_image 1500 1000 1024).scale_factor =
      some (ImagePreprocessor.shrink_scale 1500 1000 1024) ∧
     0 < ImagePreprocessor.shrink_scale 1500 1000 1024 ∧
     ImagePreprocessor.shrink_scale 1500 1000 1024 ≤ 1 ∧
     (ImagePreprocessor.resize_image 1500 1000 1024).processed_size =
       some (py_int ((1500 : ℚ) * ImagePreprocessor.shrink_scale 1500 1000 1024),
             py_int ((1000 : ℚ) * ImagePreprocessor.shrink_scale 1500 1000 1024)) ∧
     py_int ((max 1500 1000 : ℤ) * ImagePreprocessor.shrink_scale 1500 1000 1024)
       = 1024) :=
  ⟨by decide, by decide, by decide, Or.inl (by decide),
   resize_image_shrink 1500 1000 1024 (by decide) (by decide) (by decide)
     (Or.inl (by decide))⟩

/-!
### C1 — conversion to original space divides, clamps, and round-trips
-/

/-- C1: for every scale record with `scale_factor ∈ (0, 1]` and positive
original size `(w0, h0)`, `convert_coordinates_to_original` (i) maps every
four-coordinate box into `[0, w0]` for x and `[0, h0]` for y, and (ii) for
a box already within the original bounds, scaling it by `scale_factor` and
mapping it back returns it exactly (exact arithmetic; "within rounding
tolerance" for floats). -/
theorem convert_to_original_bounds_roundtrip
    (sf u1 u2 u3 u4 x1 y1 x2 y2 : ℚ) (w0 h0 : ℤ) (ps : Option (ℤ × ℤ))
    (hsf0 : 0 < sf) (hsf1 : sf ≤ 1) (hw : 0 < w0) (hh : 0 < h0)
    (hx1 : 0 ≤ x1) (hx1w : x1 ≤ (w0 : ℚ)) (hy1 : 0 ≤ y1) (hy1h : y1 ≤ (h0 : ℚ))
    (hx2 : 0 ≤ x2) (hx2w : x2 ≤ (w0 : ℚ)) (hy2 : 0 ≤ y2) (hy2h : y2 ≤ (h0 : ℚ)) :
    ImagePreprocessor.resultInBounds w0 h0
      (ImagePreprocessor.convert_coordinates_to_original
        ⟨some (w0, h0), ps, some sf⟩ [u1, u2, u3, u4]) ∧
    ImagePreprocessor.convert_coordinates_to_original
        ⟨some (w0, h0), ps, some sf⟩ [x1 * sf, y1 * sf, x2 * sf, y2 * sf] =
      .ok [x1, y1, x2, y2] := by
  have hw' : (0 : ℚ) ≤ (w0 : ℚ) := by exact_mod_cast hw.le
  have hh' : (0 : ℚ) ≤ (h0 : ℚ) := by exact_mod_cast hh.le
  have hsf' : sf ≠ 0 := ne_of_gt hsf0
  constructor
  · exact ⟨le_max_left _ _, max_le hw' (min_le_right _ _),
           le_max_left _ _, max_le hh' (min_le_right _ _),
           le_max_left _ _, max_le hw' (min_le_right _ _),
           le_max_left _ _, max_le hh' (min_le_right _ _)⟩
  · show Except.ok _ = _
    rw [mul_div_cancel_right₀ x1 hsf', mul_div_cancel_right₀ y1 hsf',
        mul_div_cancel_right₀ x2 hsf', mul_div_cancel_right₀ y2 hsf',
        min_eq_left hx1w, max_eq_right hx1, min_eq_left hy1h, max_eq_right hy1,
        min_eq_left hx2w, max_eq_right hx2, min_eq_left hy2h, max_eq_right hy2]

/-- Witness for C1: scale factor 1/2, original size 100 × 80, an arbitrary
working-space box for the bounds part and the in-bounds original box
(10, 20, 90, 70) for the round trip. -/
theorem convert_to_original_bounds_roundtrip_witness :
    (0 : ℚ) < 1/2 ∧ (1 : ℚ)/2 ≤ 1 ∧ (0 : ℤ) < 100 ∧ (0 : ℤ) < 80 ∧
    (0 : ℚ) ≤ 10 ∧ (10 : ℚ) ≤ ((100 : ℤ) : ℚ) ∧
    (0 : ℚ) ≤ 20 ∧ (20 : ℚ) ≤ ((80 : ℤ) : ℚ) ∧
    (0 : ℚ) ≤ 90 ∧ (90 : ℚ) ≤ ((100 : ℤ) : ℚ) ∧
    (0 : ℚ) ≤ 70 ∧ (70 : ℚ) ≤ ((80 : ℤ) : ℚ) ∧
    (ImagePreprocessor.resultInBounds 100 80
      (ImagePreprocessor.convert_coordinates_to_original
        ⟨some (100, 80), some (50, 40), some (1/2)⟩ [-3, 7, 999, 41]) ∧
     ImagePreprocessor.convert_coordinates_to_original
        ⟨some (100, 80), some (50, 40), some (1/2)⟩
        [10 * (1/2), 20 * (1/2), 90 * (1/2), 70 * (1/2)] =
      .ok [10, 20, 90, 70]) :=
  ⟨by norm_num, by norm_num, by decide, by decide,
   by norm_num, by norm_num, by norm_num, by norm_num,
   by norm_num, by norm_num, by norm_num, by norm_num,
   convert_to_original_bounds_roundtrip (1/2) (-3) 7 999 41 10 20 90 70
     100 80 (some (50, 40)) (by norm_num) (by norm_num) (by decide) (by decide)
     (by norm_num) (by norm_num) (by norm_num) (by norm_num)
     (by norm_num) (by norm_num) (by norm_num) (by norm_num)⟩

/-!
### C4 — unparseable responses yield the empty dict, they do not raise
-/

/-- C4 counterexample: `sentence_to_dict` applied to the raw text
`"not json at all"` *returns* the default empty structure `{}` (after
printing a message) — by its very type it raises nothing — contradicting
the claim that parsing raises a `MalformedResponseError` carrying the raw
text and never returns a default or empty structure. -/
theorem sentence_to_dict_not_json_cex :
    PreciseSegmentationTest.sentence_to_dict "not json at all" =
      Json.obj [] := rfl

/-- C4 as amended: for every non-blank input on which JSON decoding of the
fence-stripped text fails, `sentence_to_dict` returns the empty dict `{}`
(it prints a diagnostic and never raises; the agent's
`ask_about_image_with_coordinate_conversion` likewise catches
`json.JSONDecodeError` and returns the raw text unchanged). -/
theorem sentence_to_dict_unparseable (s : String)
    (hne : ¬(PyStr.py_strip s = ""))
    (hparse : Json.json_loads
      (PreciseSegmentationTest.clean_json_from_markdown s) = none) :
    PreciseSegmentationTest.sentence_to_dict s = Json.obj [] := by
  unfold PreciseSegmentationTest.sentence_to_dict
  rw [if_neg hne, hparse]

/-- Witness for the amended C4 at the raw text `"not json at all"`. -/
theorem sentence_to_dict_unparseable_witness :
    ¬(PyStr.py_strip "not json at all" = "") ∧
    Json.json_loads
      (PreciseSegmentationTest.clean_json_from_markdown "not json at all") =
      none ∧
    PreciseSegmentationTest.sentence_to_dict "not json at all" =
      Json.obj [] :=
  ⟨by decide, rfl,
   sentence_to_dict_unparseable "not json at all" (by decide) rfl⟩

/-!
### C7 — swapped coordinates: normalized by the response validator,
but not by `BoundingBox`
-/

theorem getMember_insertMember (kvs : List (String × Json)) (k : String)
    (v : Json) :
    Json.getMember (Json.insertMember kvs k v) k = some v := by
  unfold Json.insertMember
  split_ifs with h
  · induction kvs with
    | nil => simp at h
    | cons m rest ih =>
        rcases m with ⟨k2, v2⟩
        simp only [List.any_cons] at h
        by_cases hk : (k2 == k) = true
        · simp only [List.map_cons, if_pos hk]
          unfold Json.getMember
          rw [if_pos rfl]
        · simp only [List.map_cons, if_neg hk]
          unfold Json.getMember
          rw [if_neg (fun he => hk (by simp [he]))]
          apply ih
          rcases Bool.or_eq_true_iff.mp h with h' | h'
          · exact absurd h' hk
          · exact h'
  · induction kvs with
    | nil =>
        simp only [List.nil_append]
        unfold Json.getMember
        rw [if_pos rfl]
    | cons m rest ih =>
        rcases m with ⟨k2, v2⟩
        simp only [List.any_cons, Bool.or_eq_true_iff, not_or] at h
        simp only [List.cons_append]
        unfold Json.getMember
        rw [if_neg (fun he => h.1 (by simp [he]))]
        exact ih (by simp [h.2])

theorem swap_pair_le {u v a b : ℚ}
    (h : (if v < u then (v, u) else (u, v)) = (a, b)) : a ≤ b := by
  split_ifs at h with hc
  · injection h with h1 h2
    subst h1; subst h2
    exact hc.le
  · injection h with h1 h2
    subst h1; subst h2
    exact le_of_not_lt hc

theorem normalized_box_insert (kvs : List (String × Json)) (a b c d : ℚ)
    (hac : a ≤ c) (hbd : b ≤ d) :
    PreciseSegmentationTest.normalized_box
      (Json.obj (Json.insertMember kvs "bbox_2d"
        (Json.arr [Json.num a, Json.num b, Json.num c, Json.num d]))) := by
  show PreciseSegmentationTest.bbox_ordered
    (Json.getMember (Json.insertMember kvs "bbox_2d"
      (Json.arr [Json.num a, Json.num b, Json.num c, Json.num d])) "bbox_2d")
  rw [getMember_insertMember]
  exact ⟨hac, hbd⟩

theorem validate_item_normalized (item j : Json)
    (h : PreciseSegmentationTest.validate_item item = some j) :
    PreciseSegmentationTest.normalized_box j := by
  unfold PreciseSegmentationTest.validate_item at h
  split at h
  case _ kvs =>
    split at h
    case _ a b c d =>
      split at h
      case _ fx1 fy1 fx2 fy2 =>
        split at h
        case _ p1 x1 x2 hx =>
          split at h
          case _ p2 y1 y2 hy =>
            injection h with hj
            subst hj
            exact normalized_box_insert _ _ _ _ _
              (Int.cast_le.mpr (py_int_mono (swap_pair_le hx)))
              (Int.cast_le.mpr (py_int_mono (swap_pair_le hy)))
      case _ => exact Option.noConfusion h
    case _ => exact Option.noConfusion h
  case _ => exact Option.noConfusion h

theorem filterMap_validate_forall (items : List Json) :
    (items.filterMap PreciseSegmentationTest.validate_item).Forall
      PreciseSegmentationTest.normalized_box := by
  induction items with
  | nil => trivial
  | cons a rest ih =>
      rw [List.filterMap_cons]
      cases hv : PreciseSegmentationTest.validate_item a with
      | none => exact ih
      | some j =>
          rw [List.forall_cons]
          exact ⟨validate_item_normalized a j hv, ih⟩

/-- C7 counterexample: `BoundingBox` (and the scene analyst's object
parsing, which fills it verbatim from the detection payload) performs no
swap normalization — the detection entry with box (300, 50, 100, 200) is
stored by the system exactly as given, with `x1 = 300 > x2 = 100`.  Only
the list-shaped response path of `sentence_to_dict` normalizes. -/
theorem detected_object_keeps_swapped_box_cex :
    (Core.parse_detected_object
        { bounding_box := some { x1 := some 300, y1 := some 50,
                                 x2 := some 100, y2 := some 200,
                                 confidence := none },
          object_id := some "obj_1", label := some "杯子",
          category := some "杯子", confidence := none,
          description := none }).map (fun o => o.bounding_box) =
      some { x1 := 300, y1 := 50, x2 := 100, y2 := 200,
             confidence := 1 } ∧
    ¬((300 : ℤ) ≤ 100) :=
  ⟨by decide, by decide⟩

/-- C7 as amended: the swap normalization lives in `sentence_to_dict`'s
validation of *list-shaped* parsed responses: every region it emits under
`"segmentation_results"` satisfies `x1 ≤ x2 ∧ y1 ≤ y2` (e.g. the box
(300, 50, 100, 200) becomes (100, 50, 300, 200)).  Regions built
elsewhere — `BoundingBox` values filled by the scene analyst, or dict-shaped
parses returned as-is — are not normalized. -/
theorem sentence_to_dict_normalizes (s : String) (items : List Json)
    (hne : ¬(PyStr.py_strip s = ""))
    (hparse : Json.json_loads
      (PreciseSegmentationTest.clean_json_from_markdown s) =
        some (Json.arr items)) :
    PreciseSegmentationTest.sentence_to_dict s =
      Json.obj [("segmentation_results",
        Json.arr (items.filterMap PreciseSegmentationTest.validate_item))] ∧
    (items.filterMap PreciseSegmentationTest.validate_item).Forall
      PreciseSegmentationTest.normalized_box := by
  constructor
  · unfold PreciseSegmentationTest.sentence_to_dict
    rw [if_neg hne, hparse]
  · exact filterMap_validate_forall items

/-- Witness for the amended C7 at the spec's example: the response
`[{"bbox_2d": [300, 50, 100, 200], "label": "A"}]` is accepted and its box
is normalized to `[100, 50, 300, 200]`. -/
theorem sentence_to_dict_normalizes_witness :
    ¬(PyStr.py_strip "[\x7b\"bbox_2d\": [300, 50, 100, 200], \"label\": \"A\"\x7d]"
        = "") ∧
    Json.json_loads (PreciseSegmentationTest.clean_json_from_markdown
        "[\x7b\"bbox_2d\": [300, 50, 100, 200], \"label\": \"A\"\x7d]") =
      some (Json.arr [Json.obj
        [("bbox_2d",
          Json.arr [Json.num 300, Json.num 50, Json.num 100, Json.num 200]),
         ("label", Json.str "A")]]) ∧
    (PreciseSegmentationTest.sentence_to_dict
        "[\x7b\"bbox_2d\": [300, 50, 100, 200], \"label\": \"A\"\x7d]" =
      Json.obj [("segmentation_results",
        Json.arr ([Json.obj
          [("bbox_2d",
            Json.arr [Json.num 300, Json.num 50, Json.num 100, Json.num 200]),
           ("label", Json.str "A")]].filterMap
            PreciseSegmentationTest.validate_item))] ∧
     ([Json.obj
        [("bbox_2d",
          Json.arr [Json.num 300, Json.num 50, Json.num 100, Json.num 200]),
         ("label", Json.str "A")]].filterMap
          PreciseSegmentationTest.validate_item).Forall
        PreciseSegmentationTest.normalized_box) ∧
    PreciseSegmentationTest.first_segmentation_bbox
      (PreciseSegmentationTest.sentence_to_dict
        "[\x7b\"bbox_2d\": [300, 50, 100, 200], \"label\": \"A\"\x7d]") =
      some [100, 50, 300, 200] :=
  ⟨by decide, rfl,
   sentence_to_dict_normalizes
     "[\x7b\"bbox_2d\": [300, 50, 100, 200], \"label\": \"A\"\x7d]"
     [Json.obj
       [("bbox_2d",
         Json.arr [Json.num 300, Json.num 50, Json.num 100, Json.num 200]),
        ("label", Json.str "A")]]
     (by decide) rfl,
   by decide⟩

/-!
### C8 — conversion without a scale record
-/

/-- C8 counterexample: `PreciseSegmentationAgent.convert_coordinates_to_original`
with `scale_info = None` does *not* fail — it passes the unscaled box
through unchanged (after printing a warning), contradicting the claim that
the conversion fails with `InvalidStateError` instead of returning any
coordinates. -/
theorem agent_convert_passthrough_cex :
    PreciseSegmentationAgent.convert_coordinates_to_original none
      [Json.obj [("bbox_2d",
         Json.arr [Json.num 10, Json.num 20, Json.num 30, Json.num 40]),
        ("label", Json.str "handle")]] =
    .ok [Json.obj [("bbox_2d",
         Json.arr [Json.num 10, Json.num 20, Json.num 30, Json.num 40]),
        ("label", Json.str "handle")]] := rfl

/-- C8 as amended: when no scale record is available, the *preprocessor*
level `ImagePreprocessor.convert_coordinates_to_original` raises
`ValueError` (the code's counterpart of the spec's `InvalidStateError`)
and returns no coordinates; the *agent*-level wrapper, however, does not
raise: it returns the segmentation results unconverted with a warning. -/
theorem convert_without_scale_record (os ps : Option (ℤ × ℤ))
    (bbox : List ℚ) (results : List Json) :
    ImagePreprocessor.convert_coordinates_to_original
        ⟨os, ps, none⟩ bbox =
      .error "缩放信息不可用，请先调用preprocess_image方法" ∧
    PreciseSegmentationAgent.convert_coordinates_to_original none results =
      .ok results := by
  constructor
  · rcases os with _ | ⟨w0, h0⟩ <;> rfl
  · rfl

/-!
### C5 — scene-analysis failure short-circuits the pipeline
-/

theorem except_branch_raises (image_path : String) (total_time : ℚ)
    (e : String) :
    Core.except_branch image_path total_time e =
      .error (Core.category_validation_error "未知") := by
  have hcat : Core.ObjectCategory.valid.contains "未知" = false := by decide
  unfold Core.except_branch Core.DetectedObject.validate
  rw [if_pos hcat]

/-- C5: in every run whose SceneAnalysis stage fails with cause `c`, the
strategy and segmentation stages are never entered (the run ends with the
stage marker still at "场景分析"), the completed-stages list is empty, and
the errors list is exactly one entry naming the scene-analysis stage with
the cause.  The run then terminates in the `except` branch, whose
`ValidationError` escapes `process` (no result object is returned — see
C9). -/
theorem pipeline_short_circuit (inp : Core.RunInputs) (c : String)
    (hv : inp.validate_ok = true)
    (hs : inp.sceneOutcome = .error c) :
    Core.process inp =
      .error (Core.category_validation_error "未知",
        { stage := "场景分析", completed_stages := [],
          current_data_keys := [],
          errors := ["场景分析失败: " ++ c], warnings := [] }) := by
  unfold Core.process
  rw [hv, if_neg (fun h => Bool.noConfusion h), hs]
  simp [Core.stage_scene_analysis, Core.initial_pipeline,
        Core.handle_failure, except_branch_raises]

/-- Witness for C5: a concrete run whose scene analysis fails with cause
"无法加载图像". -/
theorem pipeline_short_circuit_witness :
    ({ image_path := "img.jpg", user_instruction := "请拿杯子",
       validate_ok := true, sceneOutcome := .error "无法加载图像",
       intent := { raw_instruction := "请拿杯子", intent_type := "饮水" },
       segOutcome := fun _ => .error "unused",
       total_time := 0 } : Core.RunInputs).validate_ok = true ∧
    ({ image_path := "img.jpg", user_instruction := "请拿杯子",
       validate_ok := true, sceneOutcome := .error "无法加载图像",
       intent := { raw_instruction := "请拿杯子", intent_type := "饮水" },
       segOutcome := fun _ => .error "unused",
       total_time := 0 } : Core.RunInputs).sceneOutcome =
      .error "无法加载图像" ∧
    Core.process
      { image_path := "img.jpg", user_instruction := "请拿杯子",
        validate_ok := true, sceneOutcome := .error "无法加载图像",
        intent := { raw_instruction := "请拿杯子", intent_type := "饮水" },
        segOutcome := fun _ => .error "unused", total_time := 0 } =
      .error (Core.category_validation_error "未知",
        { stage := "场景分析", completed_stages := [],
          current_data_keys := [],
          errors := ["场景分析失败: " ++ "无法加载图像"], warnings := [] }) :=
  ⟨rfl, rfl,
   pipeline_short_circuit
     { image_path := "img.jpg", user_instruction := "请拿杯子",
       validate_ok := true, sceneOutcome := .error "无法加载图像",
       intent := { raw_instruction := "请拿杯子", intent_type := "饮水" },
       segOutcome := fun _ => .error "unused", total_time := 0 }
     "无法加载图像" rfl rfl⟩

/-!
### C6 — an empty scene is a successful stage-1 output; strategy fails
-/

theorem findSome?_of_all_none {α β : Type} (l : List α) (f : α → Option β)
    (h : ∀ a, f a = none) : l.findSome? f = none := by
  induction l with
  | nil => rfl
  | cons a rest ih =>
      rw [List.findSome?_cons, h a]
      exact ih

/-- C6: in every run where scene recognition succeeds with zero objects,
the SceneAnalysis stage completes ("场景分析" is recorded as completed and
the empty result is handed to the strategy stage), and the strategy stage
— whose `_select_target_object` finds no candidate in an empty scene for
any intent — fails with the no-valid-strategy cause, leaving SceneAnalysis
as the only completed stage.  The run then terminates in the `except`
branch, whose `ValidationError` escapes `process` (see C9). -/
theorem empty_scene_propagates (inp : Core.RunInputs)
    (scene : Core.SceneAnalysisResult)
    (hv : inp.validate_ok = true)
    (hs : inp.sceneOutcome = .ok scene)
    (hobj : scene.objects = []) :
    Core.select_target_object inp.intent scene = none ∧
    Core.process inp =
      .error (Core.category_validation_error "未知",
        { stage := "策略规划", completed_stages := ["场景分析"],
          current_data_keys := ["scene_result"],
          errors := ["策略规划失败: 无法制定有效的交互策略"],
          warnings := [] }) := by
  have hsel : Core.select_target_object inp.intent scene = none := by
    unfold Core.select_target_object
    rcases hti : inp.intent.target_object_id with _ | tid <;>
      · rw [hobj]
        simp only [List.find?_nil, ite_self]
        rw [findSome?_of_all_none _ _ (fun _ => rfl)]
  refine ⟨hsel, ?_⟩
  unfold Core.process
  rw [hv, if_neg (fun h => Bool.noConfusion h), hs]
  simp [Core.stage_scene_analysis, Core.stage_strategy_planning,
        Core.create_interaction_strategy, hsel, Core.initial_pipeline,
        Core.handle_failure, except_branch_raises]

/-- Witness for C6: a concrete run whose scene analysis succeeds with zero
objects. -/
theorem empty_scene_propagates_witness :
    ({ image_path := "img.jpg", user_instruction := "请拿杯子",
       validate_ok := true,
       sceneOutcome := .ok { image_path := "img.jpg", objects := [],
                             total_objects := 0, analysis_timestamp := "t" },
       intent := { raw_instruction := "请拿杯子", intent_type := "饮水" },
       segOutcome := fun _ => .error "unused",
       total_time := 0 } : Core.RunInputs).validate_ok = true ∧
    ({ image_path := "img.jpg", user_instruction := "请拿杯子",
       validate_ok := true,
       sceneOutcome := .ok { image_path := "img.jpg", objects := [],
                             total_objects := 0, analysis_timestamp := "t" },
       intent := { raw_instruction := "请拿杯子", intent_type := "饮水" },
       segOutcome := fun _ => .error "unused",
       total_time := 0 } : Core.RunInputs).sceneOutcome =
      .ok { image_path := "img.jpg", objects := [], total_objects := 0,
            analysis_timestamp := "t" } ∧
    ({ image_path := "img.jpg", objects := [], total_objects := 0,
       analysis_timestamp := "t" } : Core.SceneAnalysisResult).objects = [] ∧
    (Core.select_target_object
       { raw_instruction := "请拿杯子", intent_type := "饮水" }
       { image_path := "img.jpg", objects := [], total_objects := 0,
         analysis_timestamp := "t" } = none ∧
     Core.process
       { image_path := "img.jpg", user_instruction := "请拿杯子",
         validate_ok := true,
         sceneOutcome := .ok { image_path := "img.jpg", objects := [],
                               total_objects := 0, analysis_timestamp := "t" },
         intent := { raw_instruction := "请拿杯子", intent_type := "饮水" },
         segOutcome := fun _ => .error "unused", total_time := 0 } =
       .error (Core.category_validation_error "未知",
         { stage := "策略规划", completed_stages := ["场景分析"],
           current_data_keys := ["scene_result"],
           errors := ["策略规划失败: 无法制定有效的交互策略"],
           warnings := [] })) :=
  ⟨rfl, rfl, rfl,
   empty_scene_propagates
     { image_path := "img.jpg", user_instruction := "请拿杯子",
       validate_ok := true,
       sceneOutcome := .ok { image_path := "img.jpg", objects := [],
                             total_objects := 0, analysis_timestamp := "t" },
       intent := { raw_instruction := "请拿杯子", intent_type := "饮水" },
       segOutcome := fun _ => .error "unused", total_time := 0 }
     { image_path := "img.jpg", objects := [], total_objects := 0,
       analysis_timestamp := "t" }
     rfl rfl rfl⟩

/-!
### C9 — what a failed run hands back to the caller
-/

/-- C9: the claim matches the `except` handler's own intent — it is
written to return a result with `success=False` and
`error_message=str(e)` — but the code is broken: the handler first
constructs `DetectedObject(object_id="error", label="错误",
bounding_box=None, category="未知")`, which pydantic rejects ("未知" is
not an `ObjectCategory` value — that value is "未知物体" — and
`bounding_box` is a required `BoundingBox`).  The resulting
`ValidationError` escapes `process`, so on every failed run the caller
receives an exception and never any result object: here evaluated at the
concrete failing input, a run rejected by input validation. -/
theorem process_failure_raises_validation_error :
    Core.except_branch "missing.jpg" 0 "输入验证失败" =
      .error (Core.category_validation_error "未知") ∧
    Core.process Core.sample_invalid_run =
      .error (Core.category_validation_error "未知",
              Core.initial_pipeline) :=
  ⟨except_branch_raises "missing.jpg" 0 "输入验证失败", rfl⟩

/-!
### C10 — scene-analysis failures are contained as empty results
-/

/-- C10: `analyze_scene` is total over every external outcome (embedded as
`SceneDeps` — its body never escapes the `try`), and under any of its
internal failures (unloadable image, raising detection call, unsuccessful
detection) it returns a `SceneAnalysisResult` with an empty objects list,
exactly the shape of a genuinely empty scene; the pipeline's scene stage
accepts any such result and appends "场景分析" to the completed stages. -/
theorem analyze_scene_contains_failures (deps : Core.SceneDeps)
    (image_path : String) (p : Core.ProcessingPipeline)
    (h : Core.scene_failed deps) :
    (Core.analyze_scene deps image_path).objects = [] ∧
    Core.stage_scene_analysis (.ok (Core.analyze_scene deps image_path)) p =
      .ok (Core.analyze_scene deps image_path,
        { p with stage := "场景分析",
                 completed_stages := p.completed_stages ++ ["场景分析"],
                 current_data_keys :=
                   p.current_data_keys ++ ["scene_result"] }) := by
  refine ⟨?_, rfl⟩
  unfold Core.analyze_scene
  rcases h with hl | hd
  · rw [if_pos hl]
    rfl
  · by_cases hl : deps.load_image_ok = false
    · rw [if_pos hl]
      rfl
    · rw [if_neg hl]
      revert hd
      cases hdet : deps.detection with
      | error e => intro _; rfl
      | ok det =>
          intro hd2
          have hs : det.success = false := hd2
          simp [hs, Core.empty_scene_result]

/-- Witness for C10: detection reports `success = False` (e.g. the model
response could not be parsed), on an otherwise loadable image. -/
theorem analyze_scene_contains_failures_witness :
    Core.scene_failed
      { load_image_ok := true, quality_good := true,
        detection := .ok { success := false, error := some "响应格式错误",
                           objects := [] },
        timestamp := "t" } ∧
    ((Core.analyze_scene
        { load_image_ok := true, quality_good := true,
          detection := .ok { success := false, error := some "响应格式错误",
                             objects := [] },
          timestamp := "t" } "img.jpg").objects = [] ∧
     Core.stage_scene_analysis
        (.ok (Core.analyze_scene
          { load_image_ok := true, quality_good := true,
            detection := .ok { success := false, error := some "响应格式错误",
                               objects := [] },
            timestamp := "t" } "img.jpg")) Core.initial_pipeline =
      .ok (Core.analyze_scene
          { load_image_ok := true, quality_good := true,
            detection := .ok { success := false, error := some "响应格式错误",
                               objects := [] },
            timestamp := "t" } "img.jpg",
        { Core.initial_pipeline with
            stage := "场景分析",
            completed_stages :=
              Core.initial_pipeline.completed_stages ++ ["场景分析"],
            current_data_keys :=
              Core.initial_pipeline.current_data_keys ++ ["scene_result"] })) :=
  ⟨Or.inr rfl,
   analyze_scene_contains_failures
     { load_image_ok := true, quality_good := true,
       detection := .ok { success := false, error := some "响应格式错误",
                          objects := [] },
       timestamp := "t" }
     "img.jpg" Core.initial_pipeline (Or.inr rfl)⟩
